import Mathlib

/-
Verification of the multiplexing dispatcher, accept loop, tunnel-opening and
shutdown logic of server/server.go (package server of SaSSHimi).

The dispatcher `handleClients` is embedded as a pure step function over the
connection registry; every externally visible action it performs (lock
operations, registry lookups and mutations, calls on a logical connection,
log lines) is recorded, in execution order, in an event trace.  A logical
connection (`common.Client`) is modelled by the two observations the
dispatcher makes of it: the result of `IsDead()` and the result of
`Write(data)` (an optional error supplied by the environment).
-/

set_option autoImplicit false

namespace SaSSHimi

/-- Model of `common.Client` as observed by the dispatcher: its identifier,
the value `IsDead()` returns, and the error (if any) that `Write` returns. -/
structure Client where
  id : String
  dead : Bool
  writeErr : Option String
  deriving DecidableEq

/-- Model of `common.DataMessage`: the frame exchanged over the transport,
with its connection identifier, payload bytes and the three control flags. -/
structure DataMessage where
  clientId : String
  data : List Nat
  keepAlive : Bool
  closeClient : Bool
  deadClient : Bool
  deriving DecidableEq

/-- One observable action of the dispatcher or the accept loop. -/
inductive Event where
  | lockAcquire
  | lockRelease
  | lookupClient (id : String)
  | warnClosedClient (id : String)
  | notifyEOF (id : String) (isError : Bool)
  | terminate (id : String)
  | closeConn (id : String)
  | writeData (id : String) (data : List Nat)
  | errorWriting (e : String)
  | insertClient (id : String)
  | deleteClient (id : String)
  deriving DecidableEq

/-- The registry `tunnel.Clients`, a map from client id to client, modelled
as an association list with at most one live entry per key. -/
abbrev Registry := List (String × Client)

/-- Go two-valued map read `client, prs := t.Clients[msg.ClientId]`. -/
def Registry.find : Registry → String → Option Client
  | [], _ => none
  | (k, c) :: rest, id => if k = id then some c else Registry.find rest id

/-- Go `delete(t.Clients, msg.ClientId)`. -/
def Registry.erase (r : Registry) (id : String) : Registry :=
  List.filter (fun p => p.1 != id) r

/-- One iteration of the dispatcher loop body of `handleClients`
(server.go lines 270-304), applied to one inbound message.  Returns the
updated registry together with the trace of actions, in execution order. -/
def handleClientsStep (clients : Registry) (msg : DataMessage) :
    Registry × List Event :=
  if msg.keepAlive then
    -- `continue`: the frame is skipped before the lock is taken
    (clients, [])
  else
    match Registry.find clients msg.clientId with
    | none =>
        (clients,
         [Event.lockAcquire, Event.lookupClient msg.clientId,
          Event.warnClosedClient msg.clientId, Event.lockRelease])
    | some client =>
        if msg.deadClient then
          -- ACK for client termination
          (Registry.erase clients msg.clientId,
           [Event.lockAcquire, Event.lookupClient msg.clientId,
            Event.notifyEOF msg.clientId false, Event.terminate msg.clientId,
            Event.deleteClient msg.clientId, Event.lockRelease])
        else if msg.closeClient then
          (Registry.erase clients msg.clientId,
           [Event.lockAcquire, Event.lookupClient msg.clientId,
            Event.closeConn msg.clientId, Event.deleteClient msg.clientId,
            Event.lockRelease])
        else if client.dead then
          (clients,
           [Event.lockAcquire, Event.lookupClient msg.clientId,
            Event.lockRelease])
        else
          match client.writeErr with
          | none =>
              (clients,
               [Event.lockAcquire, Event.lookupClient msg.clientId,
                Event.writeData msg.clientId msg.data, Event.lockRelease])
          | some e =>
              -- write failed: Terminate, NotifyEOF(true), log; no delete
              (clients,
               [Event.lockAcquire, Event.lookupClient msg.clientId,
                Event.writeData msg.clientId msg.data,
                Event.terminate msg.clientId, Event.notifyEOF msg.clientId true,
                Event.errorWriting e, Event.lockRelease])

/-- The registration by the accept loop of a freshly accepted connection,
`tunnel.Clients[client.Id] = client` (server.go lines 409-416 and 339-346).
The source performs the map assignment without taking `ClientsLock`, so the
trace records no lock events. -/
def acceptInsert (clients : Registry) (c : Client) : Registry × List Event :=
  ((c.id, c) :: Registry.erase clients c.id, [Event.insertClient c.id])

/-- Events that act on a logical connection (a call on `client`). -/
def isClientAction : Event → Bool
  | Event.notifyEOF _ _ => true
  | Event.terminate _ => true
  | Event.closeConn _ => true
  | Event.writeData _ _ => true
  | _ => false

/-- Observable steps of the shutdown callback `onExit` (server.go 363-385). -/
inductive ShutdownEvent where
  | restoreTerminal
  | terminateAll
  | waitingNotice
  | sigterm
  | warnRemoteTimeout
  | errNoRespond
  | warnResidualFiles
  | sessionClose
  | clientClose
  | listenerClose
  deriving DecidableEq

/-- The shutdown callback `onExit` of `Run` (server.go lines 363-385).
`recv1` states whether a closure notification is received on
`tunnel.NotifyClosure` within the first 5-second select, `recv2` whether one
is received within the second 5-second select; when a select times out its
escalation branch runs. -/
def onExit (recv1 recv2 : Bool) : List ShutdownEvent :=
  [ShutdownEvent.restoreTerminal, ShutdownEvent.terminateAll,
   ShutdownEvent.waitingNotice] ++
  (if recv1 then [] else
    [ShutdownEvent.sigterm, ShutdownEvent.warnRemoteTimeout]) ++
  (if recv2 then [] else
    [ShutdownEvent.errNoRespond, ShutdownEvent.warnResidualFiles,
     ShutdownEvent.sessionClose]) ++
  [ShutdownEvent.clientClose, ShutdownEvent.listenerClose]

/-- The part of the tunnel state that `openTunnel` and
`openTransparentTunnel` mutate: the `ChannelOpen` flag and how many times
`NotifyClosure <- struct{}{}` has been signalled. -/
structure TunnelState where
  channelOpen : Bool
  notifyCount : Nat
  deriving DecidableEq

/-- Tunnel state as built by `newTunnel` / `newTransparentTunnel`. -/
def newTunnelState : TunnelState :=
  { channelOpen := true, notifyCount := 0 }

/-- Environment outcomes of the fallible external calls made by
`openTunnel`: each field is the error returned by the corresponding call
(`none` when the call succeeds).  `runRes` is the result of
`t.sshSession.Run(runCommand)`, which the source ignores. -/
structure TunnelEnv where
  dialErr : Option String
  uploadErr : Option String
  sessionErr : Option String
  stdinErr : Option String
  stdoutErr : Option String
  runRes : Option String
  deriving DecidableEq

/-- `openTunnel` (server.go lines 197-266): the state change and the Go
`error` return value, `none` standing for a nil error. -/
def openTunnel (env : TunnelEnv) (s : TunnelState) :
    TunnelState × Option String :=
  match env.dialErr with
  | some e => (s, some ("Dial error: " ++ e))
  | none =>
    match env.uploadErr with
    | some e => (s, some ("Failed to upload forwarder " ++ e))
    | none =>
      match env.sessionErr with
      | some e => (s, some ("Failed to create session: " ++ e))
      | none =>
        match env.stdinErr with
        | some e => (s, some ("Failed to pipe STDIN on session: " ++ e))
        | none =>
          match env.stdoutErr with
          | some e => (s, some ("Failed to pipe STDOUT on session: " ++ e))
          | none =>
            -- the result of Run is discarded; ChannelOpen = false, notify once
            ({ channelOpen := false, notifyCount := s.notifyCount + 1 },
             some "Remote process is dead")

/-- `openTransparentTunnel` (server.go lines 169-195): `runErr` is the
result of `cmd.Run()`. -/
def openTransparentTunnel (runErr : Option String) (s : TunnelState) :
    TunnelState × Option String :=
  match runErr with
  | some e => (s, some ("Run transparent command error: " ++ e))
  | none =>
      ({ channelOpen := false, notifyCount := s.notifyCount + 1 },
       some "Remote process is dead")

/-! ### Helper lemmas on the registry -/

theorem Registry.find_erase_self (r : Registry) (id : String) :
    Registry.find (Registry.erase r id) id = none := by
  induction r with
  | nil => rfl
  | cons p rest ih =>
      simp only [Registry.erase, List.filter_cons] at ih ⊢
      by_cases h : p.1 = id
      · simp [h, ih]
      · simp [h, bne_iff_ne, Registry.find, ih]

theorem Registry.find_erase_ne (r : Registry) (cid id : String)
    (h : cid ≠ id) :
    Registry.find (Registry.erase r cid) id = Registry.find r id := by
  induction r with
  | nil => rfl
  | cons p rest ih =>
      simp only [Registry.erase, List.filter_cons] at ih ⊢
      by_cases hp : p.1 = cid
      · have hne : ¬p.1 = id := by rw [hp]; exact h
        simp [hp, Registry.find, hne, ih, h]
      · by_cases hq : p.1 = id
        · simp [hp, bne_iff_ne, Registry.find, hq, Ne.symm h]
        · simp [hp, bne_iff_ne, Registry.find, hq, ih]

/-- No dispatcher step creates a registry entry: an absent identifier stays
absent. -/
theorem handleClientsStep_preserves_absent (clients : Registry)
    (m : DataMessage) (id : String)
    (h : Registry.find clients id = none) :
    Registry.find (handleClientsStep clients m).1 id = none := by
  unfold handleClientsStep
  by_cases hka : m.keepAlive
  · simp [hka, h]
  · simp only [hka, if_false, Bool.false_eq_true, ite_false]
    cases hf : Registry.find clients m.clientId with
    | none => simpa using h
    | some client =>
        by_cases hcid : m.clientId = id
        · rw [hcid] at hf
          rw [hf] at h
          exact absurd h (by simp)
        · by_cases hd : m.deadClient
          · simpa [hd] using
              (Registry.find_erase_ne clients m.clientId id hcid).trans h
          · by_cases hc : m.closeClient
            · simpa [hd, hc] using
                (Registry.find_erase_ne clients m.clientId id hcid).trans h
            · by_cases hdead : client.dead
              · simpa [hd, hc, hdead] using h
              · cases hw : client.writeErr with
                | none => simpa [hd, hc, hdead, hw] using h
                | some e => simpa [hd, hc, hdead, hw] using h

/-! ### Claim C4 -/

/-- Claim C4: an inbound frame with the keepAlive flag set is skipped before
any registry lookup: the dispatcher takes no lock, performs no lookup, leaves
the registry unchanged and acts on no logical connection. -/
theorem handleClients_keepAlive_skip (clients : Registry) (msg : DataMessage)
    (h : msg.keepAlive = true) :
    handleClientsStep clients msg = (clients, []) := by
  simp [handleClientsStep, h]

theorem handleClients_keepAlive_skip_witness :
    handleClientsStep [("c1", { id := "c1", dead := false, writeErr := none })]
        { clientId := "c1", data := [7], keepAlive := true,
          closeClient := false, deadClient := false } =
      ([("c1", { id := "c1", dead := false, writeErr := none })], []) :=
  handleClients_keepAlive_skip _ _ rfl

/-! ### Claim C5 -/

/-- Claim C5: a non-keepAlive frame whose connectionId is absent from the
registry is dropped with a warning: the registry is unchanged, no logical
connection is acted on, and the only events are the lock pair, the lookup
and the warning log line. -/
theorem handleClients_unknown_client_drop (clients : Registry)
    (msg : DataMessage)
    (hka : msg.keepAlive = false)
    (h : Registry.find clients msg.clientId = none) :
    (handleClientsStep clients msg).1 = clients ∧
    (handleClientsStep clients msg).2 =
      [Event.lockAcquire, Event.lookupClient msg.clientId,
       Event.warnClosedClient msg.clientId, Event.lockRelease] ∧
    ∀ e ∈ (handleClientsStep clients msg).2, isClientAction e = false := by
  refine ⟨?_, ?_, ?_⟩ <;> simp [handleClientsStep, hka, h, isClientAction]

theorem handleClients_unknown_client_drop_witness :
    (handleClientsStep []
        { clientId := "c9", data := [1], keepAlive := false,
          closeClient := false, deadClient := false }).1 = ([] : Registry) ∧
    (handleClientsStep []
        { clientId := "c9", data := [1], keepAlive := false,
          closeClient := false, deadClient := false }).2 =
      [Event.lockAcquire, Event.lookupClient "c9",
       Event.warnClosedClient "c9", Event.lockRelease] ∧
    ∀ e ∈ (handleClientsStep []
        { clientId := "c9", data := [1], keepAlive := false,
          closeClient := false, deadClient := false }).2,
      isClientAction e = false :=
  handleClients_unknown_client_drop [] _ rfl rfl

/-! ### Claim C8 -/

/-- Claim C8: a data-bearing frame for a registered but dead logical
connection is silently discarded: the payload is not written, the entry is
not removed, and no termination or error event occurs — the only
events are taking and releasing the lock around the lookup. -/
theorem handleClients_dead_connection_drop (clients : Registry)
    (msg : DataMessage) (client : Client)
    (hka : msg.keepAlive = false) (hdc : msg.deadClient = false)
    (hcc : msg.closeClient = false)
    (hfind : Registry.find clients msg.clientId = some client)
    (hdead : client.dead = true) :
    handleClientsStep clients msg =
      (clients,
       [Event.lockAcquire, Event.lookupClient msg.clientId,
        Event.lockRelease]) ∧
    Registry.find (handleClientsStep clients msg).1 msg.clientId =
      some client := by
  have h1 : handleClientsStep clients msg =
      (clients,
       [Event.lockAcquire, Event.lookupClient msg.clientId,
        Event.lockRelease]) := by
    simp [handleClientsStep, hka, hdc, hcc, hfind, hdead]
  exact ⟨h1, by rw [h1]; exact hfind⟩

theorem handleClients_dead_connection_drop_witness :
    handleClientsStep [("c1", { id := "c1", dead := true, writeErr := none })]
        { clientId := "c1", data := [3, 4], keepAlive := false,
          closeClient := false, deadClient := false } =
      ([("c1", { id := "c1", dead := true, writeErr := none })],
       [Event.lockAcquire, Event.lookupClient "c1", Event.lockRelease]) ∧
    Registry.find
        (handleClientsStep
          [("c1", { id := "c1", dead := true, writeErr := none })]
          { clientId := "c1", data := [3, 4], keepAlive := false,
            closeClient := false, deadClient := false }).1 "c1" =
      some { id := "c1", dead := true, writeErr := none } :=
  handleClients_dead_connection_drop _ _ _ rfl rfl rfl rfl rfl

/-! ### Claim C3 -/

/-- Claim C3: a frame with the CloseClient flag for a registered connection
makes the dispatcher call close() on it — not terminate() — and delete its
registry entry. -/
theorem handleClients_closeClient_req (clients : Registry)
    (msg : DataMessage) (client : Client)
    (hka : msg.keepAlive = false) (hdc : msg.deadClient = false)
    (hcc : msg.closeClient = true)
    (hfind : Registry.find clients msg.clientId = some client) :
    handleClientsStep clients msg =
      (Registry.erase clients msg.clientId,
       [Event.lockAcquire, Event.lookupClient msg.clientId,
        Event.closeConn msg.clientId, Event.deleteClient msg.clientId,
        Event.lockRelease]) ∧
    Event.terminate msg.clientId ∉ (handleClientsStep clients msg).2 ∧
    Registry.find (handleClientsStep clients msg).1 msg.clientId = none := by
  have h1 : handleClientsStep clients msg =
      (Registry.erase clients msg.clientId,
       [Event.lockAcquire, Event.lookupClient msg.clientId,
        Event.closeConn msg.clientId, Event.deleteClient msg.clientId,
        Event.lockRelease]) := by
    simp [handleClientsStep, hka, hdc, hcc, hfind]
  refine ⟨h1, ?_, ?_⟩
  · rw [h1]; simp
  · rw [h1]; exact Registry.find_erase_self clients msg.clientId

theorem handleClients_closeClient_req_witness :
    handleClientsStep [("c1", { id := "c1", dead := false, writeErr := none })]
        { clientId := "c1", data := [], keepAlive := false,
          closeClient := true, deadClient := false } =
      (Registry.erase [("c1", { id := "c1", dead := false, writeErr := none })]
        "c1",
       [Event.lockAcquire, Event.lookupClient "c1", Event.closeConn "c1",
        Event.deleteClient "c1", Event.lockRelease]) ∧
    Event.terminate "c1" ∉
      (handleClientsStep
        [("c1", { id := "c1", dead := false, writeErr := none })]
        { clientId := "c1", data := [], keepAlive := false,
          closeClient := true, deadClient := false }).2 ∧
    Registry.find
        (handleClientsStep
          [("c1", { id := "c1", dead := false, writeErr := none })]
          { clientId := "c1", data := [], keepAlive := false,
            closeClient := true, deadClient := false }).1 "c1" = none :=
  handleClients_closeClient_req _ _ _ rfl rfl rfl rfl

/-! ### Claim C2 -/

/-- Claim C2: a frame with the DeadClient flag for a registered connection
makes the dispatcher call notifyEOF(false) then terminate() and delete the
registry entry; the deletion happens exactly once, because afterwards the
identifier is absent, absence is preserved by every later step, and any
later frame referencing the identifier leaves the registry unchanged,
performs no delete and dispatches no call to any logical connection. -/
theorem handleClients_deadClient_ack (clients : Registry)
    (msg : DataMessage) (client : Client)
    (hka : msg.keepAlive = false) (hdc : msg.deadClient = true)
    (hfind : Registry.find clients msg.clientId = some client) :
    handleClientsStep clients msg =
      (Registry.erase clients msg.clientId,
       [Event.lockAcquire, Event.lookupClient msg.clientId,
        Event.notifyEOF msg.clientId false, Event.terminate msg.clientId,
        Event.deleteClient msg.clientId, Event.lockRelease]) ∧
    Registry.find (handleClientsStep clients msg).1 msg.clientId = none ∧
    (∀ clients2 m, Registry.find clients2 msg.clientId = none →
       Registry.find (handleClientsStep clients2 m).1 msg.clientId = none) ∧
    (∀ clients2 m, Registry.find clients2 msg.clientId = none →
       m.clientId = msg.clientId →
       (handleClientsStep clients2 m).1 = clients2 ∧
       Event.deleteClient msg.clientId ∉ (handleClientsStep clients2 m).2 ∧
       ∀ e ∈ (handleClientsStep clients2 m).2, isClientAction e = false) := by
  have h1 : handleClientsStep clients msg =
      (Registry.erase clients msg.clientId,
       [Event.lockAcquire, Event.lookupClient msg.clientId,
        Event.notifyEOF msg.clientId false, Event.terminate msg.clientId,
        Event.deleteClient msg.clientId, Event.lockRelease]) := by
    simp [handleClientsStep, hka, hdc, hfind]
  refine ⟨h1, ?_, ?_, ?_⟩
  · rw [h1]; exact Registry.find_erase_self clients msg.clientId
  · intro clients2 m habs
    exact handleClientsStep_preserves_absent clients2 m msg.clientId habs
  · intro clients2 m habs hid
    by_cases hka2 : m.keepAlive
    · refine ⟨?_, ?_, ?_⟩ <;> simp [handleClientsStep, hka2, isClientAction]
    · rw [← hid] at habs
      refine ⟨?_, ?_, ?_⟩ <;>
        simp [handleClientsStep, hka2, habs, isClientAction]

theorem handleClients_deadClient_ack_witness :
    handleClientsStep [("c1", { id := "c1", dead := false, writeErr := none })]
        { clientId := "c1", data := [], keepAlive := false,
          closeClient := false, deadClient := true } =
      (Registry.erase [("c1", { id := "c1", dead := false, writeErr := none })]
        "c1",
       [Event.lockAcquire, Event.lookupClient "c1",
        Event.notifyEOF "c1" false, Event.terminate "c1",
        Event.deleteClient "c1", Event.lockRelease]) :=
  (handleClients_deadClient_ack
    [("c1", { id := "c1", dead := false, writeErr := none })]
    { clientId := "c1", data := [], keepAlive := false,
      closeClient := false, deadClient := true }
    { id := "c1", dead := false, writeErr := none } rfl rfl rfl).1

/-! ### Claim C1 -/

/-- Claim C1 counterexample: for the registered, non-dead connection "c1"
whose socket write fails, the dispatcher does call terminate() and
notifyEOF(true), but the registry still holds the entry for "c1" after the
step — the claimed removal does not happen. -/
theorem handleClients_writeError_keeps_entry_cex :
    Event.terminate "c1" ∈
      (handleClientsStep
        [("c1", { id := "c1", dead := false, writeErr := some "broken pipe" })]
        { clientId := "c1", data := [1, 2], keepAlive := false,
          closeClient := false, deadClient := false }).2 ∧
    Event.notifyEOF "c1" true ∈
      (handleClientsStep
        [("c1", { id := "c1", dead := false, writeErr := some "broken pipe" })]
        { clientId := "c1", data := [1, 2], keepAlive := false,
          closeClient := false, deadClient := false }).2 ∧
    Registry.find
        (handleClientsStep
          [("c1", { id := "c1", dead := false, writeErr := some "broken pipe" })]
          { clientId := "c1", data := [1, 2], keepAlive := false,
            closeClient := false, deadClient := false }).1 "c1" =
      some { id := "c1", dead := false, writeErr := some "broken pipe" } := by
  refine ⟨?_, ?_, ?_⟩ <;> decide

/-- Claim C1 as amended: when the write of a data frame to a registered,
non-dead connection fails, the dispatcher calls terminate() then
notifyEOF(true) and logs the error within the same step, without requiring
any further frame from the peer — but it does not remove the registry
entry: the registry is returned unchanged and the connection is still
found under its identifier. -/
theorem handleClients_writeError (clients : Registry) (msg : DataMessage)
    (client : Client) (e : String)
    (hka : msg.keepAlive = false) (hdc : msg.deadClient = false)
    (hcc : msg.closeClient = false)
    (hfind : Registry.find clients msg.clientId = some client)
    (hdead : client.dead = false) (hw : client.writeErr = some e) :
    handleClientsStep clients msg =
      (clients,
       [Event.lockAcquire, Event.lookupClient msg.clientId,
        Event.writeData msg.clientId msg.data, Event.terminate msg.clientId,
        Event.notifyEOF msg.clientId true, Event.errorWriting e,
        Event.lockRelease]) ∧
    Registry.find (handleClientsStep clients msg).1 msg.clientId =
      some client := by
  have h1 : handleClientsStep clients msg =
      (clients,
       [Event.lockAcquire, Event.lookupClient msg.clientId,
        Event.writeData msg.clientId msg.data, Event.terminate msg.clientId,
        Event.notifyEOF msg.clientId true, Event.errorWriting e,
        Event.lockRelease]) := by
    simp [handleClientsStep, hka, hdc, hcc, hfind, hdead, hw]
  exact ⟨h1, by rw [h1]; exact hfind⟩

theorem handleClients_writeError_witness :
    handleClientsStep
        [("c1", { id := "c1", dead := false, writeErr := some "broken pipe" })]
        { clientId := "c1", data := [9], keepAlive := false,
          closeClient := false, deadClient := false } =
      ([("c1", { id := "c1", dead := false, writeErr := some "broken pipe" })],
       [Event.lockAcquire, Event.lookupClient "c1",
        Event.writeData "c1" [9], Event.terminate "c1",
        Event.notifyEOF "c1" true, Event.errorWriting "broken pipe",
        Event.lockRelease]) :=
  (handleClients_writeError
    [("c1", { id := "c1", dead := false, writeErr := some "broken pipe" })]
    { clientId := "c1", data := [9], keepAlive := false,
      closeClient := false, deadClient := false }
    { id := "c1", dead := false, writeErr := some "broken pipe" }
    "broken pipe" rfl rfl rfl rfl rfl rfl).1

/-! ### Claim C10 -/

/-- Claim C10: the dispatcher resolves conflicting control flags by a fixed
priority: a frame with DeadClient set is handled exactly as the terminal
acknowledgment whatever its CloseClient flag and payload; a frame with only
CloseClient set is handled exactly as a close request whatever its payload;
and a write of payload data is only ever performed for a frame with neither
flag set. -/
theorem handleClients_flag_priority (clients : Registry) (msg : DataMessage) :
    (msg.deadClient = true →
      handleClientsStep clients msg =
        handleClientsStep clients
          { msg with closeClient := false, data := [] }) ∧
    (msg.deadClient = false → msg.closeClient = true →
      handleClientsStep clients msg =
        handleClientsStep clients { msg with data := [] }) ∧
    (∀ id d, Event.writeData id d ∈ (handleClientsStep clients msg).2 →
      msg.deadClient = false ∧ msg.closeClient = false) := by
  refine ⟨?_, ?_, ?_⟩
  · intro hdc
    by_cases hka : msg.keepAlive
    · simp [handleClientsStep, hka]
    · cases hf : Registry.find clients msg.clientId with
      | none => simp [handleClientsStep, hka, hf]
      | some client => simp [handleClientsStep, hka, hf, hdc]
  · intro hdc hcc
    by_cases hka : msg.keepAlive
    · simp [handleClientsStep, hka]
    · cases hf : Registry.find clients msg.clientId with
      | none => simp [handleClientsStep, hka, hf]
      | some client => simp [handleClientsStep, hka, hf, hdc, hcc]
  · intro id d hmem
    by_cases hka : msg.keepAlive
    · simp [handleClientsStep, hka] at hmem
    · cases hf : Registry.find clients msg.clientId with
      | none => simp [handleClientsStep, hka, hf] at hmem
      | some client =>
          by_cases hdc : msg.deadClient
          · simp [handleClientsStep, hka, hf, hdc] at hmem
          · by_cases hcc : msg.closeClient
            · simp [handleClientsStep, hka, hf, hdc, hcc] at hmem
            · constructor
              · simp at hdc; exact hdc
              · simp at hcc; exact hcc

theorem handleClients_flag_priority_witness :
    handleClientsStep [("c1", { id := "c1", dead := false, writeErr := none })]
        { clientId := "c1", data := [5], keepAlive := false,
          closeClient := true, deadClient := true } =
      handleClientsStep
        [("c1", { id := "c1", dead := false, writeErr := none })]
        { clientId := "c1", data := [], keepAlive := false,
          closeClient := false, deadClient := true } :=
  (handleClients_flag_priority
      [("c1", { id := "c1", dead := false, writeErr := none })]
      { clientId := "c1", data := [5], keepAlive := false,
        closeClient := true, deadClient := true }).1 rfl

/-! ### Claim C6 -/

/-- Claim C6 counterexample: the registration by the accept loop of the freshly
accepted connection "a" emits no lock acquisition at all — the map insert
is performed without holding the registry lock — and the dispatcher step
for a data frame performs the blocking socket write strictly between
acquiring and releasing the lock, so the lock is held across blocking I/O. -/
theorem registry_lock_cex :
    (acceptInsert [] { id := "a", dead := false, writeErr := none }).2 =
      [Event.insertClient "a"] ∧
    (handleClientsStep [("c1", { id := "c1", dead := false, writeErr := none })]
        { clientId := "c1", data := [8], keepAlive := false,
          closeClient := false, deadClient := false }).2 =
      [Event.lockAcquire, Event.lookupClient "c1",
       Event.writeData "c1" [8], Event.lockRelease] := by
  refine ⟨?_, ?_⟩ <;> decide

/-- Claim C6 as amended: the registry mutations of the dispatcher do respect the
lock — the trace of every non-keepAlive step is exactly a lock acquisition, a
lock-free middle and a final release, so its deletions happen under the
lock — but the insertion by the accept loop is performed without ever touching
the lock, and the dispatcher keeps the lock held across the blocking socket
write of a data frame, which therefore occurs inside the locked region. -/
theorem registry_lock_discipline (clients : Registry) (msg : DataMessage)
    (c : Client) :
    (msg.keepAlive = false →
      ∃ mid, (handleClientsStep clients msg).2 =
          Event.lockAcquire :: mid ++ [Event.lockRelease] ∧
        Event.lockAcquire ∉ mid ∧ Event.lockRelease ∉ mid) ∧
    (acceptInsert clients c).2 = [Event.insertClient c.id] ∧
    (∀ client e, Registry.find clients msg.clientId = some client →
      msg.keepAlive = false → msg.deadClient = false →
      msg.closeClient = false → client.dead = false →
      client.writeErr = some e →
      Event.writeData msg.clientId msg.data ∈
        (handleClientsStep clients msg).2) := by
  refine ⟨?_, rfl, ?_⟩
  · intro hka
    cases hf : Registry.find clients msg.clientId with
    | none =>
        exact ⟨[Event.lookupClient msg.clientId,
                Event.warnClosedClient msg.clientId],
          by simp [handleClientsStep, hka, hf], by simp, by simp⟩
    | some client =>
        by_cases hdc : msg.deadClient
        · exact ⟨[Event.lookupClient msg.clientId,
                  Event.notifyEOF msg.clientId false,
                  Event.terminate msg.clientId,
                  Event.deleteClient msg.clientId],
            by simp [handleClientsStep, hka, hf, hdc], by simp, by simp⟩
        · by_cases hcc : msg.closeClient
          · exact ⟨[Event.lookupClient msg.clientId,
                    Event.closeConn msg.clientId,
                    Event.deleteClient msg.clientId],
              by simp [handleClientsStep, hka, hf, hdc, hcc], by simp, by simp⟩
          · by_cases hdead : client.dead
            · exact ⟨[Event.lookupClient msg.clientId],
                by simp [handleClientsStep, hka, hf, hdc, hcc, hdead],
                by simp, by simp⟩
            · cases hw : client.writeErr with
              | none =>
                  exact ⟨[Event.lookupClient msg.clientId,
                          Event.writeData msg.clientId msg.data],
                    by simp [handleClientsStep, hka, hf, hdc, hcc, hdead, hw],
                    by simp, by simp⟩
              | some e =>
                  exact ⟨[Event.lookupClient msg.clientId,
                          Event.writeData msg.clientId msg.data,
                          Event.terminate msg.clientId,
                          Event.notifyEOF msg.clientId true,
                          Event.errorWriting e],
                    by simp [handleClientsStep, hka, hf, hdc, hcc, hdead, hw],
                    by simp, by simp⟩
  · intro client e hf hka hdc hcc hdead hw
    simp [handleClientsStep, hka, hf, hdc, hcc, hdead, hw]

theorem registry_lock_discipline_witness :
    ∃ mid,
      (handleClientsStep
          [("c1", { id := "c1", dead := false, writeErr := none })]
          { clientId := "c1", data := [8], keepAlive := false,
            closeClient := false, deadClient := false }).2 =
        Event.lockAcquire :: mid ++ [Event.lockRelease] ∧
      Event.lockAcquire ∉ mid ∧ Event.lockRelease ∉ mid :=
  (registry_lock_discipline
      [("c1", { id := "c1", dead := false, writeErr := none })]
      { clientId := "c1", data := [8], keepAlive := false,
        closeClient := false, deadClient := false }
      { id := "a", dead := false, writeErr := none }).1 rfl

/-! ### Claim C7 -/

/-- Claim C7: during shutdown, when no closure notification is received
within the first grace period the termination signal is sent exactly once,
and when none is received within the second grace period either, the
transport session is force-closed exactly once and the residual-state
warning is emitted exactly once; when a notification does arrive in a
period, the escalation of that period is not performed at all. -/
theorem onExit_escalation (recv1 recv2 : Bool) :
    (recv1 = false →
      (onExit recv1 recv2).count ShutdownEvent.sigterm = 1) ∧
    (recv1 = true →
      (onExit recv1 recv2).count ShutdownEvent.sigterm = 0) ∧
    (recv2 = false →
      (onExit recv1 recv2).count ShutdownEvent.sessionClose = 1 ∧
      (onExit recv1 recv2).count ShutdownEvent.warnResidualFiles = 1) ∧
    (recv2 = true →
      (onExit recv1 recv2).count ShutdownEvent.sessionClose = 0 ∧
      (onExit recv1 recv2).count ShutdownEvent.warnResidualFiles = 0) := by
  cases recv1 <;> cases recv2 <;> decide

theorem onExit_escalation_witness :
    (onExit false false).count ShutdownEvent.sigterm = 1 ∧
    (onExit false false).count ShutdownEvent.sessionClose = 1 ∧
    (onExit false false).count ShutdownEvent.warnResidualFiles = 1 :=
  ⟨(onExit_escalation false false).1 rfl,
   ((onExit_escalation false false).2.2.1 rfl).1,
   ((onExit_escalation false false).2.2.1 rfl).2⟩

/-! ### Claim C9 -/

/-- Claim C9: openTunnel and openTransparentTunnel never return a nil
error; in particular when every external call succeeds — whatever the
ignored result of running the remote command — they set the channel-open
flag to false, signal the closure notification exactly once more, and
return the error "Remote process is dead". -/
theorem openTunnel_always_error :
    (∀ env s, (openTunnel env s).2 ≠ none) ∧
    (∀ r s, (openTransparentTunnel r s).2 ≠ none) ∧
    (∀ rr s, openTunnel
        { dialErr := none, uploadErr := none, sessionErr := none,
          stdinErr := none, stdoutErr := none, runRes := rr } s =
      ({ channelOpen := false, notifyCount := s.notifyCount + 1 },
       some "Remote process is dead")) ∧
    (∀ s, openTransparentTunnel none s =
      ({ channelOpen := false, notifyCount := s.notifyCount + 1 },
       some "Remote process is dead")) := by
  refine ⟨?_, ?_, ?_, ?_⟩
  · intro env s
    obtain ⟨d, u, se, si, so, rr⟩ := env
    cases d <;> cases u <;> cases se <;> cases si <;> cases so <;>
      simp [openTunnel]
  · intro r s
    cases r <;> simp [openTransparentTunnel]
  · intro rr s
    rfl
  · intro s
    rfl

theorem openTunnel_always_error_witness :
    openTunnel
        { dialErr := none, uploadErr := none, sessionErr := none,
          stdinErr := none, stdoutErr := none, runRes := none }
        newTunnelState =
      ({ channelOpen := false, notifyCount := 1 },
       some "Remote process is dead") :=
  openTunnel_always_error.2.2.1 none newTunnelState

end SaSSHimi
